import Mathlib

/-!
Shallow embedding of the n8n Claude Code node
(`src/nodes/ClaudeCode/ClaudeCode.node.ts`, `execute` method):
option building for the SDK query call, message aggregation, the three
output formatters, the failure translator, and the per-item batch loop.

JavaScript objects produced by the formatters are modelled as a JSON-like
inductive `J`; a key that the code does not add is simply absent from the
association list.  Fields of SDK records that may be absent are modelled
as `Option`; JavaScript truthiness of a string is "present and non-empty",
of a number "present and non-zero", of an object "present".
-/

namespace ClaudeCodeNode

/-- JSON-like values: the shape of the objects the node pushes to
`returnData`.  `null` stands for a JavaScript `null`/`undefined` value
stored under a key. -/
inductive J where
  | null : J
  | bool : Bool → J
  | num : Rat → J
  | str : String → J
  | arr : List J → J
  | obj : List (String × J) → J
deriving Repr

/-- Lookup in an association list of object fields (first binding wins,
as in the JavaScript objects built by the code, which never assign a key
twice). -/
def jGetFields : List (String × J) → String → Option J
  | [], _ => none
  | (k', v) :: kvs, k => if k = k' then some v else jGetFields kvs k

/-- Key lookup in an object value. -/
def jGet : J → String → Option J
  | .obj kvs, k => jGetFields kvs k
  | _, _ => none

mutual

/-- Whether no key anywhere in the value holds `null`. -/
def noNull : J → Bool
  | .null => false
  | .bool _ => true
  | .num _ => true
  | .str _ => true
  | .arr xs => noNullList xs
  | .obj kvs => noNullFields kvs

/-- Conjunction of `noNull` over the elements of an array. -/
def noNullList : List J → Bool
  | [] => true
  | x :: xs => noNull x && noNullList xs

/-- Conjunction of `noNull` over the values of an object. -/
def noNullFields : List (String × J) → Bool
  | [] => true
  | (_, v) :: kvs => noNull v && noNullFields kvs

end

/-- One content block of an assistant/user message payload
(`message.content[i]`): a tagged variant with a `type` discriminant. -/
inductive ContentBlock where
  | text : String → ContentBlock
  | tool_use : String → ContentBlock
deriving Repr, DecidableEq

/-- The `message` payload carried by `assistant`/`user` records. -/
structure MessagePayload where
  content : List ContentBlock
deriving Repr, DecidableEq

/-- The `usage` structure of a `result` record (a map of counters). -/
def Usage := List (String × Rat)

/-- One response record of the SDK stream (`SDKMessage`).  Fields that a
given record type does not carry are `none`. -/
structure Record where
  type : String
  subtype : Option String := none
  message : Option MessagePayload := none
  result : Option String := none
  error : Option String := none
  duration_ms : Option Rat := none
  num_turns : Option Rat := none
  total_cost_usd : Option Rat := none
  usage : Option (List (String × Rat)) := none
  tools : Option (List String) := none
deriving Repr, DecidableEq

/-- JavaScript `s.trim()`: strip leading and trailing whitespace. -/
def jsTrim (s : String) : String :=
  let ws : Char → Bool := fun c =>
    c == ' ' || c == '\t' || c == '\n' || c == '\r'
  ⟨(((s.toList.dropWhile ws).reverse.dropWhile ws).reverse)⟩

/-- JavaScript truthiness of a possibly-absent string field:
`undefined` and `""` are falsy. -/
def truthyStr : Option String → Option String
  | some s => if s = "" then none else some s
  | none => none

/-- JavaScript `x || 0` on a possibly-absent numeric field. -/
def jsNumOr0 : Option Rat → Rat
  | some x => if x = 0 then 0 else x
  | none => 0

/-- Helper: a key that is added only under a condition. -/
def jopt (k : String) : Option J → List (String × J)
  | some v => [(k, v)]
  | none => []

/-- Serialization of a content block as the SDK delivers it. -/
def blockToJ : ContentBlock → J
  | .text t => J.obj [("type", J.str "text"), ("text", J.str t)]
  | .tool_use n => J.obj [("type", J.str "tool_use"), ("name", J.str n)]

/-- Serialization of a message payload. -/
def msgToJ (m : MessagePayload) : J :=
  J.obj [("content", J.arr (m.content.map blockToJ))]

/-- Serialization of a `usage` map. -/
def usageToJ (u : List (String × Rat)) : J :=
  J.obj (u.map (fun kv => (kv.1, J.num kv.2)))

/-- Serialization of a raw record (used by the structured format's debug
`messages` field): absent fields are absent keys. -/
def recordToJ (m : Record) : J :=
  J.obj ([("type", J.str m.type)]
    ++ jopt "subtype" (m.subtype.map J.str)
    ++ jopt "message" (m.message.map msgToJ)
    ++ jopt "result" (m.result.map J.str)
    ++ jopt "error" (m.error.map J.str)
    ++ jopt "duration_ms" (m.duration_ms.map J.num)
    ++ jopt "num_turns" (m.num_turns.map J.num)
    ++ jopt "total_cost_usd" (m.total_cost_usd.map J.num)
    ++ jopt "usage" (m.usage.map usageToJ)
    ++ jopt "tools" (m.tools.map (fun ts => J.arr (ts.map J.str))))

/-- The record the text and structured formatters derive success, result
text and metrics from: `messages.find((m) => m.type === 'result')`. -/
def findResultRecord (messages : List Record) : Option Record :=
  messages.find? (fun m => m.type == "result")

/-- The `text` output format (lines 364-383 of the source):
`result` via `String(rm?.result || rm?.error || 'No result available')`,
`success` via `rm?.subtype === 'success' || false`, metrics keys added
only when defined on the record. -/
def textFormat (messages : List Record) : J :=
  let rm := findResultRecord messages
  let resultVal : String :=
    match truthyStr (rm.bind Record.result) with
    | some s => s
    | none =>
      match truthyStr (rm.bind Record.error) with
      | some e => e
      | none => "No result available"
  let success : Bool := (rm.bind Record.subtype) == some "success"
  J.obj ([("result", J.str resultVal), ("success", J.bool success)]
    ++ jopt "duration_ms" ((rm.bind Record.duration_ms).map J.num)
    ++ jopt "total_cost_usd" ((rm.bind Record.total_cost_usd).map J.num))

/-- One entry of the `messages` format (lines 386-394): keeps `type` and
each of `message`/`result`/`error`/`subtype` only when truthy. -/
def cleanMessage (m : Record) : J :=
  J.obj ([("type", J.str m.type)]
    ++ jopt "message" (m.message.map msgToJ)
    ++ jopt "result" ((truthyStr m.result).map J.str)
    ++ jopt "error" ((truthyStr m.error).map J.str)
    ++ jopt "subtype" ((truthyStr m.subtype).map J.str))

/-- The `messages` output format (lines 384-402). -/
def messagesFormat (messages : List Record) : J :=
  J.obj [("messages", J.arr (messages.map cleanMessage)),
         ("messageCount", J.num (messages.length : Rat))]

/-- The `summary` block of the structured format (lines 405-424):
counts, `hasResult`, and the `init` record's tools (else the empty
list). -/
def structuredSummary (messages : List Record) : J :=
  let userMessages := messages.filter (fun m => m.type == "user")
  let assistantMessages := messages.filter (fun m => m.type == "assistant")
  let toolUses := messages.filter (fun m =>
    m.type == "assistant" &&
      (match (m.message.map MessagePayload.content).bind List.head? with
       | some (.tool_use _) => true
       | _ => false))
  let systemInit := messages.find? (fun m =>
    m.type == "system" && m.subtype == some "init")
  J.obj [
    ("userMessageCount", J.num (userMessages.length : Rat)),
    ("assistantMessageCount", J.num (assistantMessages.length : Rat)),
    ("toolUseCount", J.num (toolUses.length : Rat)),
    ("hasResult", J.bool (findResultRecord messages).isSome),
    ("toolsAvailable", J.arr (((systemInit.bind Record.tools).getD []).map J.str))]

/-- The `result`-else-`error` key of the structured format
(lines 428-433): added only when truthy. -/
def structuredResultOrError (rm : Option Record) : List (String × J) :=
  match truthyStr (rm.bind Record.result) with
  | some s => [("result", J.str s)]
  | none =>
    match truthyStr (rm.bind Record.error) with
    | some e => [("error", J.str e)]
    | none => []

/-- The `metrics` block of the structured format (lines 435-443): added
only when the result record exists and carries a defined `duration_ms`;
absent sub-metrics are defaulted via `|| 0` and `|| {}`. -/
def structuredMetrics (rm : Option Record) : List (String × J) :=
  match rm with
  | some r =>
    match r.duration_ms with
    | some _ =>
      [("metrics", J.obj [
        ("duration_ms", J.num (jsNumOr0 r.duration_ms)),
        ("num_turns", J.num (jsNumOr0 r.num_turns)),
        ("total_cost_usd", J.num (jsNumOr0 r.total_cost_usd)),
        ("usage", usageToJ (r.usage.getD []))])]
    | none => []
  | none => []

/-- The `structured` output format (lines 403-454). -/
def structuredFormat (debug : Bool) (messages : List Record) : J :=
  let rm := findResultRecord messages
  let success : Bool := (rm.bind Record.subtype) == some "success"
  J.obj ([("summary", structuredSummary messages), ("success", J.bool success)]
    ++ structuredResultOrError rm
    ++ structuredMetrics rm
    ++ (if debug then [("messages", J.arr (messages.map recordToJ))] else []))

/-- The `additionalOptions` collection (default `{}`: all fields at the
declared defaults). -/
structure AdditionalOptions where
  systemPrompt : String := ""
  requirePermissions : Bool := false
  debug : Bool := false

/-- The per-item configuration read from the host (lines 228-241). -/
structure Params where
  operation : String := "query"
  prompt : String := ""
  model : String := "sonnet"
  maxTurns : Nat := 10
  timeout : Nat := 300
  projectPath : String := ""
  outputFormat : String := "structured"
  allowedTools : List String := []
  settingSources : List String := []
  additionalOptions : AdditionalOptions := {}

/-- The `options` member of the object handed to the SDK `query` call
(interface `QueryOptions.options`, lines 270-280): optional keys are
`none` when the code does not set them. -/
structure SdkOptions where
  maxTurns : Nat
  permissionMode : String
  model : String
  systemPrompt : Option String := none
  allowedTools : Option (List String) := none
  settingSources : Option (List String) := none
  continueFlag : Option Bool := none
  cwd : Option String := none

/-- Option building of lines 283-325: required keys always set, optional
keys only under the corresponding guard. -/
def buildSdkOptions (p : Params) : SdkOptions :=
  let base : SdkOptions := {
    maxTurns := p.maxTurns
    permissionMode :=
      if p.additionalOptions.requirePermissions then "default"
      else "bypassPermissions"
    model := p.model }
  -- if (additionalOptions.systemPrompt) — truthy string
  let o1 := if p.additionalOptions.systemPrompt ≠ "" then
      { base with systemPrompt := some p.additionalOptions.systemPrompt }
    else base
  -- if (projectPath && projectPath.trim() !== '')
  let o2 := if p.projectPath ≠ "" ∧ jsTrim p.projectPath ≠ "" then
      { o1 with cwd := some (jsTrim p.projectPath) }
    else o1
  -- if (allowedTools.length > 0)
  let o3 := if p.allowedTools.length > 0 then
      { o2 with allowedTools := some p.allowedTools }
    else o2
  -- if (settingSources.length > 0)
  let o4 := if p.settingSources.length > 0 then
      { o3 with settingSources := some p.settingSources }
    else o3
  -- if (operation === 'continue')
  if p.operation == "continue" then { o4 with continueFlag := some true }
  else o4

/-- A JavaScript `Error` as far as the catch block inspects it:
`name`, `message` and optional `stack`. -/
structure ErrorInfo where
  name : String
  message : String
  stack : Option String := none
deriving Repr, DecidableEq

/-- What the SDK `query` call does for one item: either delivers the full
record stream, or the drain throws. -/
inductive SdkOutcome where
  | ok : List Record → SdkOutcome
  | err : ErrorInfo → SdkOutcome

/-- Whether `pat` is an initial segment of `l`. -/
def listStartsWith : List Char → List Char → Bool
  | [], _ => true
  | _ :: _, [] => false
  | p :: ps, h :: hs => (p == h) && listStartsWith ps hs

/-- Whether `pat` occurs contiguously inside `l`. -/
def listHasSub (pat : List Char) : List Char → Bool
  | [] => pat.isEmpty
  | h :: t => listStartsWith pat (h :: t) || listHasSub pat t

/-- JavaScript `hay.includes(pat)`. -/
def strIncludes (hay pat : String) : Bool :=
  listHasSub pat.toList hay.toList

/-- The pair (userFriendlyMessage, description) raised as a
`NodeOperationError` (lines 484-506). -/
structure Categorized where
  userFriendlyMessage : String
  description : String
deriving Repr, DecidableEq

/-- The failure translator of lines 459-461 and 484-501: `isTimeout` is
the dedicated cancellation check (`error.name === 'AbortError'`); all
other categories match on the message text, in source order. -/
def translateError (timeout : Nat) (e : ErrorInfo) : Categorized :=
  let errorMessage := e.message
  let isTimeout := e.name == "AbortError"
  if isTimeout then
    { userFriendlyMessage :=
        s!"Operation timed out after {timeout} seconds. Consider increasing the timeout in Additional Options."
      description := errorMessage }
  else if strIncludes errorMessage "exited with code 1"
      || strIncludes errorMessage "spawn"
      || strIncludes errorMessage "ENOENT" then
    { userFriendlyMessage := "Claude Code CLI is not properly installed or configured."
      description := errorMessage ++ "\n\nTroubleshooting:\n1. Install Claude CLI: npm install -g @anthropic-ai/claude-code\n2. Authenticate: claude auth\n3. Verify installation: claude --version\n4. Make sure Claude CLI is in the PATH for the n8n user" }
  else if strIncludes errorMessage "Authentication"
      || strIncludes errorMessage "auth" then
    { userFriendlyMessage := "Claude Code authentication failed."
      description := errorMessage ++ "\n\nRun 'claude auth' on your server to authenticate." }
  else if strIncludes errorMessage "permission"
      || strIncludes errorMessage "EACCES" then
    { userFriendlyMessage := "Permission denied accessing project path or Claude CLI."
      description := errorMessage ++ "\n\nCheck:\n1. Project path exists and is accessible\n2. n8n user has read/write permissions\n3. Claude CLI is accessible to n8n user" }
  else
    { userFriendlyMessage := s!"Claude Code execution failed: {errorMessage}"
      description := errorMessage }

/-- Output formatting dispatch (lines 363-454): an unknown
`outputFormat` pushes nothing. -/
def formatOutput (p : Params) (messages : List Record) : Option J :=
  if p.outputFormat == "text" then some (textFormat messages)
  else if p.outputFormat == "messages" then some (messagesFormat messages)
  else if p.outputFormat == "structured" then
    some (structuredFormat p.additionalOptions.debug messages)
  else none

/-- Result of the guarded part of one item's processing (inside the
outer `try`). -/
inductive ItemResult where
  | success : Option J → ItemResult
  | failure : ErrorInfo → ItemResult

/-- The `NodeOperationError` thrown for a blank prompt (lines 249-253). -/
def promptValidationError : ErrorInfo :=
  { name := "NodeOperationError"
    message := "Prompt is required and cannot be empty" }

/-- One item's guarded processing (lines 244-458), paired with whether
`clearTimeout` was called on the path taken.  The timer is armed at line
246; the code clears it at line 354 (successful drain) and line 456
(error thrown by the drain), but the blank-prompt validation throw at
line 250 happens after arming and reaches the outer catch, which never
clears it. -/
def runItem (p : Params) (sdk : SdkOutcome) : ItemResult × Bool :=
  -- const timeoutId = setTimeout(...)  (timer armed)
  if p.prompt = "" ∨ jsTrim p.prompt = "" then
    (ItemResult.failure promptValidationError, false)
  else
    match sdk with
    | .err e => (ItemResult.failure e, true)
    | .ok messages => (ItemResult.success (formatOutput p messages), true)

/-- The structured per-item failure record pushed when the host's
continue-on-failure policy is active (lines 470-481).  A missing
`error.stack` leaves `errorDetails` holding JavaScript `undefined`,
modelled as `J.null`. -/
def errorRecord (idx : Nat) (e : ErrorInfo) : J :=
  J.obj [("error", J.str e.message),
         ("errorType", J.str (if e.name == "AbortError" then "timeout"
                              else "execution_error")),
         ("errorDetails", match e.stack with
                          | some s => J.str s
                          | none => J.null),
         ("itemIndex", J.num (idx : Rat)),
         ("success", J.bool false)]

/-- Outcome of the whole `execute` call over a batch. -/
inductive ExecuteResult where
  | ok : List J → ExecuteResult
  | raised : Categorized → Nat → ExecuteResult

/-- One input item together with the SDK behaviour its query call would
exhibit. -/
structure HostItem where
  params : Params
  sdk : SdkOutcome

/-- The batch loop of lines 225-508: items processed sequentially; a
failure either becomes an error record (continue-on-failure) or raises
the categorized error, skipping the rest of the batch. -/
def executeGo (continueOnFail : Bool) : Nat → List HostItem → List J → ExecuteResult
  | _, [], acc => ExecuteResult.ok acc.reverse
  | idx, it :: rest, acc =>
    match runItem it.params it.sdk with
    | (ItemResult.success out, _) =>
      executeGo continueOnFail (idx + 1) rest
        (match out with | some j => j :: acc | none => acc)
    | (ItemResult.failure e, _) =>
      if continueOnFail then
        executeGo continueOnFail (idx + 1) rest (errorRecord idx e :: acc)
      else
        ExecuteResult.raised (translateError it.params.timeout e) idx

/-- The `execute` entry point over a batch of items. -/
def executeItems (continueOnFail : Bool) (items : List HostItem) : ExecuteResult :=
  executeGo continueOnFail 0 items []

/-! ### Specification-side definitions

These follow the spec's words (with the amendments the counterexamples
force), to be compared with the definitions embedded from the source. -/

/-- The first record of the sequence whose `type` is `result`, by primitive
recursion over the emission order. -/
def firstResultSpec : List Record → Option Record
  | [] => none
  | m :: ms => if m.type = "result" then some m else firstResultSpec ms

/-- Spec-side success flag: the first `result` record exists and its
`subtype` is `success`. -/
def successSpec (messages : List Record) : Bool :=
  match firstResultSpec messages with
  | some r => r.subtype == some "success"
  | none => false

/-- The first candidate that is present and non-empty, else the default. -/
def firstNonEmptyStr : List (Option String) → String → String
  | [], d => d
  | some s :: rest, d => if s = "" then firstNonEmptyStr rest d else s
  | none :: rest, d => firstNonEmptyStr rest d

/-- Spec-side text-format `result` field: the first result record's
`result` field when present and non-empty, else its `error` field when
present and non-empty, else the literal fallback. -/
def textResultSpec (messages : List Record) : String :=
  match firstResultSpec messages with
  | some r => firstNonEmptyStr [r.result, r.error] "No result available"
  | none => "No result available"

/-- Spec-side record summary for the `messages` format: `type` plus each
of `message`/`result`/`error`/`subtype` that is present with a truthy
value (for the string fields: present and non-empty). -/
def cleanMessageSpec (m : Record) : J :=
  J.obj (("type", J.str m.type) ::
    List.filterMap (fun kv : String × Option J => kv.2.map (fun v => (kv.1, v)))
      [("message", m.message.map msgToJ),
       ("result", match m.result with
                  | some s => if s = "" then none else some (J.str s)
                  | none => none),
       ("error", match m.error with
                 | some s => if s = "" then none else some (J.str s)
                 | none => none),
       ("subtype", match m.subtype with
                   | some s => if s = "" then none else some (J.str s)
                   | none => none)])

/-- The five error categories of the failure translator. -/
inductive ErrorCategory where
  | timeout : ErrorCategory
  | cliNotInstalled : ErrorCategory
  | authFailed : ErrorCategory
  | permissionDenied : ErrorCategory
  | generic : ErrorCategory
deriving Repr, DecidableEq

/-- First category whose guard holds; the generic category when none
does. -/
def firstCategory : List (Bool × ErrorCategory) → ErrorCategory
  | [] => ErrorCategory.generic
  | (true, c) :: _ => c
  | (false, _) :: rest => firstCategory rest

/-- Spec-side categorization: the guards of the claim, checked in its
precedence order, first match wins.  Only the cancellation check looks at
the error's `name`; every other guard matches on the message text. -/
def errorCategorySpec (e : ErrorInfo) : ErrorCategory :=
  firstCategory [
    (e.name == "AbortError", ErrorCategory.timeout),
    (strIncludes e.message "exited with code 1" || strIncludes e.message "spawn"
       || strIncludes e.message "ENOENT", ErrorCategory.cliNotInstalled),
    (strIncludes e.message "Authentication" || strIncludes e.message "auth",
       ErrorCategory.authFailed),
    (strIncludes e.message "permission" || strIncludes e.message "EACCES",
       ErrorCategory.permissionDenied)]

/-- The user-facing message and description each category renders to. -/
def renderCategory (timeout : Nat) (e : ErrorInfo) : ErrorCategory → Categorized
  | ErrorCategory.timeout =>
    { userFriendlyMessage :=
        s!"Operation timed out after {timeout} seconds. Consider increasing the timeout in Additional Options."
      description := e.message }
  | ErrorCategory.cliNotInstalled =>
    { userFriendlyMessage := "Claude Code CLI is not properly installed or configured."
      description := e.message ++ "\n\nTroubleshooting:\n1. Install Claude CLI: npm install -g @anthropic-ai/claude-code\n2. Authenticate: claude auth\n3. Verify installation: claude --version\n4. Make sure Claude CLI is in the PATH for the n8n user" }
  | ErrorCategory.authFailed =>
    { userFriendlyMessage := "Claude Code authentication failed."
      description := e.message ++ "\n\nRun 'claude auth' on your server to authenticate." }
  | ErrorCategory.permissionDenied =>
    { userFriendlyMessage := "Permission denied accessing project path or Claude CLI."
      description := e.message ++ "\n\nCheck:\n1. Project path exists and is accessible\n2. n8n user has read/write permissions\n3. Claude CLI is accessible to n8n user" }
  | ErrorCategory.generic =>
    { userFriendlyMessage := s!"Claude Code execution failed: {e.message}"
      description := e.message }

/-! ### Shared lemmas -/

theorem findResultRecord_eq_firstResultSpec (messages : List Record) :
    findResultRecord messages = firstResultSpec messages := by
  induction messages with
  | nil => rfl
  | cons m ms ih =>
    unfold findResultRecord at ih ⊢
    simp only [List.find?]
    by_cases h : m.type = "result"
    · simp [h, firstResultSpec]
    · rw [show (m.type == "result") = false from beq_eq_false_iff_ne.mpr h]
      simp [firstResultSpec, h, ih]

theorem jsNumOr0_getD (o : Option Rat) : jsNumOr0 o = o.getD 0 := by
  cases o with
  | none => rfl
  | some x =>
    unfold jsNumOr0
    by_cases h : x = 0 <;> simp [h]

theorem jGetFields_append (l1 l2 : List (String × J)) (k : String) :
    jGetFields (l1 ++ l2) k
      = match jGetFields l1 k with
        | some v => some v
        | none => jGetFields l2 k := by
  induction l1 with
  | nil => simp [jGetFields]
  | cons kv l ih =>
    obtain ⟨k', v⟩ := kv
    by_cases h : k = k' <;> simp [jGetFields, h, ih]

/-! ### C1 -/

/-- Concrete item configuration with an empty `settingSources`
selection. -/
def cexIsolationParams : Params := { prompt := "x", settingSources := [] }

/-- C1 counterexample: with an empty `settingSources` selection, the
options object handed to the SDK `query` call has no `settingSources` key
at all — it is not an explicit empty list, contrary to the claim. -/
theorem settingSources_empty_not_explicit_list :
    (buildSdkOptions cexIsolationParams).settingSources = none
    ∧ (buildSdkOptions cexIsolationParams).settingSources ≠ some [] := by
  exact ⟨rfl, by decide⟩

/-- C1 (amended): the `settingSources` key of the SDK options is omitted
exactly when the per-item selection is empty, and holds the selected list
exactly when the selection is non-empty. -/
theorem settingSources_key_iff_nonempty (p : Params) :
    (buildSdkOptions p).settingSources
      = if p.settingSources = [] then none else some p.settingSources := by
  unfold buildSdkOptions
  split_ifs <;> simp_all [List.length_pos]

/-! ### C2 -/

/-- Concrete item configuration with a blank prompt. -/
def cexBlankPromptParams : Params := { prompt := "" }

/-- Concrete item configuration with a valid prompt. -/
def cexOkPromptParams : Params := { prompt := "hello", outputFormat := "text" }

/-- C2: the per-item timeout timer is cleared on the successful-drain and
thrown-SDK-error exit paths, but NOT on the prompt-validation exit path:
a blank prompt throws after the timer is armed and the outer catch never
clears it, contradicting the claim that every exit path disarms the
timer. -/
theorem timer_not_cleared_on_blank_prompt :
    (runItem cexBlankPromptParams (SdkOutcome.ok [])).1
        = ItemResult.failure promptValidationError
    ∧ (runItem cexBlankPromptParams (SdkOutcome.ok [])).2 = false
    ∧ (runItem cexOkPromptParams (SdkOutcome.ok [])).2 = true
    ∧ (runItem cexOkPromptParams
        (SdkOutcome.err { name := "Error", message := "boom" })).2 = true :=
  ⟨rfl, rfl, rfl, rfl⟩

/-! ### C3 -/

/-- A non-success `result` record followed by a success `result` record. -/
def cexFailResult : Record :=
  { type := "result", subtype := some "error_during_execution", result := some "partial" }

/-- A success `result` record (the terminal element of the sequence). -/
def cexSuccessResult : Record :=
  { type := "result", subtype := some "success", result := some "done" }

/-- C3 counterexample: the sequence ends in a `result` record with
subtype `success`, yet the text and structured outputs report
`success = false` (the code takes the FIRST `result` record), and the
messages output has no `success` key at all. -/
theorem success_flag_ignores_last_result_cex :
    cexSuccessResult.type = "result"
    ∧ cexSuccessResult.subtype = some "success"
    ∧ jGet (textFormat [cexFailResult, cexSuccessResult]) "success"
        = some (J.bool false)
    ∧ jGet (structuredFormat false [cexFailResult, cexSuccessResult]) "success"
        = some (J.bool false)
    ∧ jGet (messagesFormat [cexFailResult, cexSuccessResult]) "success" = none :=
  ⟨rfl, rfl, rfl, rfl, rfl⟩

/-- C3 (amended): the text and structured outputs report
`success = true` iff the FIRST `result` record of the sequence has
subtype `success` (`false` when there is none); the messages output
carries no `success` key. -/
theorem success_flag_from_first_result (messages : List Record) (debug : Bool) :
    jGet (textFormat messages) "success" = some (J.bool (successSpec messages))
    ∧ jGet (structuredFormat debug messages) "success"
        = some (J.bool (successSpec messages))
    ∧ jGet (messagesFormat messages) "success" = none := by
  have hsucc : ((findResultRecord messages).bind Record.subtype == some "success")
      = successSpec messages := by
    rw [findResultRecord_eq_firstResultSpec]
    cases h : firstResultSpec messages with
    | none => simp [successSpec, h]
    | some r => simp [successSpec, h]
  refine ⟨?_, ?_, rfl⟩
  · simp only [textFormat]
    simp [jGet, jGetFields, hsucc]
  · simp only [structuredFormat]
    simp [jGet, jGetFields, hsucc]

/-! ### C4 -/

/-- A `result` record whose `result` field is present but empty, with an
`error` field alongside. -/
def cexEmptyResultField : Record :=
  { type := "result", subtype := some "success", result := some "", error := some "boom" }

/-- C4 counterexample: the terminal record's `result` field is present
(the empty string), yet the text output falls through to the `error`
field, because the code tests JavaScript truthiness, not presence. -/
theorem text_result_empty_string_falls_through_cex :
    cexEmptyResultField.result = some ""
    ∧ jGet (textFormat [cexEmptyResultField]) "result" = some (J.str "boom")
    ∧ jGet (textFormat [cexEmptyResultField]) "result" ≠ some (J.str "") := by
  refine ⟨rfl, rfl, ?_⟩
  intro h
  rw [show jGet (textFormat [cexEmptyResultField]) "result" = some (J.str "boom")
      from rfl] at h
  simp at h

/-- C4 (amended): the text output's `result` field is the first result
record's `result` field when present and non-empty, else its `error`
field when present and non-empty, else the literal
`"No result available"` (also when no `result` record was consumed). -/
theorem text_result_field_resolution (messages : List Record) :
    jGet (textFormat messages) "result" = some (J.str (textResultSpec messages)) := by
  simp only [textFormat]
  simp only [jGet, jGetFields]
  rw [findResultRecord_eq_firstResultSpec]
  simp only [textResultSpec]
  cases h : firstResultSpec messages with
  | none => simp [truthyStr]
  | some r =>
    cases hr : r.result with
    | none =>
      cases he : r.error with
      | none => simp [truthyStr, firstNonEmptyStr, hr, he]
      | some e =>
        by_cases hes : e = "" <;>
          simp [truthyStr, firstNonEmptyStr, hr, he, hes]
    | some s =>
      by_cases hs : s = ""
      · cases he : r.error with
        | none => simp [truthyStr, firstNonEmptyStr, hr, he, hs]
        | some e =>
          by_cases hes : e = "" <;>
            simp [truthyStr, firstNonEmptyStr, hr, he, hs, hes]
      · simp [truthyStr, firstNonEmptyStr, hr, hs]

/-! ### C5 -/

/-- First of two `result` records. -/
def cexFirstTerminal : Record :=
  { type := "result", subtype := some "success", result := some "first" }

/-- Second (last) of two `result` records. -/
def cexSecondTerminal : Record :=
  { type := "result", subtype := some "success", result := some "second" }

/-- C5 counterexample: with two `result` records in the sequence, the
record the formatters use is the FIRST one, not the last as claimed. -/
theorem terminal_record_not_last_cex :
    findResultRecord [cexFirstTerminal, cexSecondTerminal] = some cexFirstTerminal
    ∧ cexFirstTerminal ≠ cexSecondTerminal
    ∧ jGet (textFormat [cexFirstTerminal, cexSecondTerminal]) "result"
        = some (J.str "first") := by
  refine ⟨rfl, by decide, rfl⟩

/-- C5 (amended): the terminal record used by the formatters is the
first `result` record of the sequence (in particular, when the sequence
contains exactly one `result` record, it is that record). -/
theorem terminal_record_is_first_result (messages : List Record) :
    findResultRecord messages = firstResultSpec messages :=
  findResultRecord_eq_firstResultSpec messages

/-! ### C6 -/

theorem cleanMessage_eq_spec (m : Record) : cleanMessage m = cleanMessageSpec m := by
  obtain ⟨ty, sub, msg, res, err, dur, nt, tc, us, tl⟩ := m
  cases msg <;> cases res <;> cases err <;> cases sub <;>
    simp [cleanMessage, cleanMessageSpec, jopt, truthyStr, List.filterMap] <;>
    split_ifs <;> simp [jopt]

/-- A record carrying present-but-empty `subtype` and `result` fields. -/
def cexEmptyStringFields : Record :=
  { type := "assistant", subtype := some "", result := some "" }

/-- C6 counterexample: `subtype` and `result` are present on the record,
yet its messages-format summary retains neither, because the code tests
JavaScript truthiness, not presence. -/
theorem clean_message_drops_empty_fields_cex :
    cexEmptyStringFields.subtype.isSome = true
    ∧ cexEmptyStringFields.result.isSome = true
    ∧ messagesFormat [cexEmptyStringFields]
        = J.obj [("messages", J.arr [J.obj [("type", J.str "assistant")]]),
                 ("messageCount", J.num ((1 : Nat) : Rat))] :=
  ⟨rfl, rfl, rfl⟩

/-- C6 (amended): the messages output's `messageCount` is the number of
records consumed, its `messages` array maps the records in emission
order, and each element keeps `type` plus whichever of
`message`/`result`/`error`/`subtype` are present with truthy values (for
the string fields: present and non-empty) and no others. -/
theorem messages_format_shape (messages : List Record) :
    messagesFormat messages
      = J.obj [("messages", J.arr (messages.map cleanMessageSpec)),
               ("messageCount", J.num ((messages.length : Nat) : Rat))] := by
  have h : cleanMessage = cleanMessageSpec := funext cleanMessage_eq_spec
  unfold messagesFormat
  rw [h]

/-! ### C7 -/

theorem noNull_obj (l : List (String × J)) : noNull (J.obj l) = noNullFields l := rfl

theorem noNull_arr (l : List J) : noNull (J.arr l) = noNullList l := rfl

theorem noNull_str (s : String) : noNull (J.str s) = true := rfl

theorem noNull_bool (b : Bool) : noNull (J.bool b) = true := rfl

theorem noNull_num (q : Rat) : noNull (J.num q) = true := rfl

theorem noNullFields_nil : noNullFields [] = true := rfl

theorem noNullList_nil : noNullList [] = true := rfl

theorem noNullList_cons (x : J) (l : List J) :
    noNullList (x :: l) = (noNull x && noNullList l) := rfl

theorem noNullFields_cons (p : String × J) (l : List (String × J)) :
    noNullFields (p :: l) = (noNull p.2 && noNullFields l) := by
  obtain ⟨k, v⟩ := p
  rfl

theorem noNullFields_append (l1 l2 : List (String × J)) :
    noNullFields (l1 ++ l2) = (noNullFields l1 && noNullFields l2) := by
  induction l1 with
  | nil => simp [noNullFields_nil]
  | cons kv l ih => simp [noNullFields_cons, ih, Bool.and_assoc]

theorem noNullList_map {α : Type} (f : α → J) (xs : List α)
    (h : ∀ x ∈ xs, noNull (f x) = true) : noNullList (xs.map f) = true := by
  induction xs with
  | nil => rfl
  | cons x xs ih =>
    simp only [List.map, noNullList_cons, Bool.and_eq_true]
    exact ⟨h x (List.mem_cons_self x xs),
           ih (fun y hy => h y (List.mem_cons_of_mem x hy))⟩

theorem noNullFields_map {α : Type} (f : α → String × J) (xs : List α)
    (h : ∀ x ∈ xs, noNull (f x).2 = true) : noNullFields (xs.map f) = true := by
  induction xs with
  | nil => rfl
  | cons x xs ih =>
    simp only [List.map, noNullFields_cons, Bool.and_eq_true]
    exact ⟨h x (List.mem_cons_self x xs),
           ih (fun y hy => h y (List.mem_cons_of_mem x hy))⟩

theorem noNull_blockToJ (b : ContentBlock) : noNull (blockToJ b) = true := by
  cases b <;> rfl

theorem noNull_msgToJ (m : MessagePayload) : noNull (msgToJ m) = true := by
  have h := noNullList_map blockToJ m.content (fun b _ => noNull_blockToJ b)
  simp [msgToJ, noNull_obj, noNullFields_cons, noNullFields_nil, noNull_arr, h]

theorem noNull_usageToJ (u : List (String × Rat)) : noNull (usageToJ u) = true := by
  simp only [usageToJ, noNull_obj]
  exact noNullFields_map _ _ (fun kv _ => rfl)

theorem noNullList_strMap (ts : List String) : noNullList (ts.map J.str) = true :=
  noNullList_map _ _ (fun _ _ => rfl)

theorem noNull_strArr (ts : List String) : noNull (J.arr (ts.map J.str)) = true := by
  simp [noNull_arr, noNullList_strMap]

theorem noNull_jopt_str (k : String) (o : Option String) :
    noNullFields (jopt k (Option.map J.str o)) = true := by
  cases o <;> rfl

theorem noNull_jopt_num (k : String) (o : Option Rat) :
    noNullFields (jopt k (Option.map J.num o)) = true := by
  cases o <;> rfl

theorem noNull_jopt_msg (k : String) (o : Option MessagePayload) :
    noNullFields (jopt k (Option.map msgToJ o)) = true := by
  cases o with
  | none => rfl
  | some a => simp [jopt, noNullFields_cons, noNullFields_nil, noNull_msgToJ]

theorem noNull_jopt_usage (k : String) (o : Option (List (String × Rat))) :
    noNullFields (jopt k (Option.map usageToJ o)) = true := by
  cases o with
  | none => rfl
  | some a => simp [jopt, noNullFields_cons, noNullFields_nil, noNull_usageToJ]

theorem noNull_jopt_tools (k : String) (o : Option (List String)) :
    noNullFields (jopt k (Option.map (fun ts => J.arr (ts.map J.str)) o)) = true := by
  cases o with
  | none => rfl
  | some a => simp [jopt, noNullFields_cons, noNullFields_nil, noNull_arr, noNullList_strMap]

theorem noNull_recordToJ (m : Record) : noNull (recordToJ m) = true := by
  simp [recordToJ, noNull_obj, noNullFields_append, noNullFields_cons, noNullFields_nil,
        noNull_str, Bool.and_eq_true, noNull_jopt_str, noNull_jopt_num, noNull_jopt_msg,
        noNull_jopt_usage, noNull_jopt_tools]

theorem noNull_cleanMessage (m : Record) : noNull (cleanMessage m) = true := by
  simp [cleanMessage, noNull_obj, noNullFields_append, noNullFields_cons, noNullFields_nil,
        noNull_str, Bool.and_eq_true, noNull_jopt_str, noNull_jopt_msg]

theorem noNull_textFormat (messages : List Record) :
    noNull (textFormat messages) = true := by
  cases h : findResultRecord messages with
  | none =>
    simp [textFormat, h, jopt, noNull_obj, noNullFields_cons, noNullFields_nil,
          noNull_str, noNull_bool]
  | some r =>
    simp [textFormat, h, noNull_obj, noNullFields_append, noNullFields_cons,
          noNullFields_nil, noNull_str, noNull_bool, Bool.and_eq_true, noNull_jopt_num]

theorem noNull_messagesFormat (messages : List Record) :
    noNull (messagesFormat messages) = true := by
  have h := noNullList_map cleanMessage messages (fun m _ => noNull_cleanMessage m)
  simp [messagesFormat, noNull_obj, noNullFields_cons, noNullFields_nil, noNull_arr,
        noNull_num, h]

theorem noNull_structuredSummary (messages : List Record) :
    noNull (structuredSummary messages) = true := by
  simp [structuredSummary, noNull_obj, noNullFields_cons, noNullFields_nil, noNull_num,
        noNull_bool, noNull_arr, Bool.and_eq_true, noNullList_strMap]

theorem noNull_structuredResultOrError (rm : Option Record) :
    noNullFields (structuredResultOrError rm) = true := by
  unfold structuredResultOrError
  cases h1 : truthyStr (rm.bind Record.result) with
  | some t => simp [noNullFields_cons, noNullFields_nil, noNull_str]
  | none =>
    cases h2 : truthyStr (rm.bind Record.error) <;>
      simp [noNullFields_cons, noNullFields_nil, noNull_str]

theorem noNull_structuredMetrics (rm : Option Record) :
    noNullFields (structuredMetrics rm) = true := by
  unfold structuredMetrics
  cases rm with
  | none => rfl
  | some r =>
    cases hd : r.duration_ms with
    | none => simp [hd, noNullFields_nil]
    | some d =>
      simp [hd, noNullFields_cons, noNullFields_nil, noNull_obj, noNull_num,
            noNull_usageToJ]

theorem noNull_structuredFormat (debug : Bool) (messages : List Record) :
    noNull (structuredFormat debug messages) = true := by
  have hsum := noNull_structuredSummary messages
  have hroe := noNull_structuredResultOrError (findResultRecord messages)
  have hmet := noNull_structuredMetrics (findResultRecord messages)
  have hmap := noNullList_map recordToJ messages (fun m _ => noNull_recordToJ m)
  cases debug <;>
    simp [structuredFormat, noNull_obj, noNullFields_append, noNullFields_cons,
          noNullFields_nil, noNull_bool, noNull_arr, Bool.and_eq_true,
          hsum, hroe, hmet, hmap]

/-- C7: none of the three output formats ever stores a `null` (or
`undefined`) value under a key, at any depth: absent data is an omitted
key. -/
theorem output_formats_no_null (messages : List Record) (debug : Bool) :
    noNull (textFormat messages) = true
    ∧ noNull (messagesFormat messages) = true
    ∧ noNull (structuredFormat debug messages) = true :=
  ⟨noNull_textFormat messages, noNull_messagesFormat messages,
   noNull_structuredFormat debug messages⟩

/-! ### C8 -/

/-- C8: the failure translator agrees, for every error and configured
timeout, with the spec's first-match precedence list: cancellation/abort
(checked via the error's `name`, not its message text), then
process-spawn signatures, then authentication text, then permission
text, then the generic category. -/
theorem failure_translator_precedence (timeout : Nat) (e : ErrorInfo) :
    translateError timeout e = renderCategory timeout e (errorCategorySpec e) := by
  unfold translateError errorCategorySpec
  cases hT : (e.name == "AbortError") <;>
  cases h1 : (strIncludes e.message "exited with code 1"
      || strIncludes e.message "spawn" || strIncludes e.message "ENOENT") <;>
  cases h2 : (strIncludes e.message "Authentication"
      || strIncludes e.message "auth") <;>
  cases h3 : (strIncludes e.message "permission"
      || strIncludes e.message "EACCES") <;>
    simp [hT, h1, h2, h3, firstCategory, renderCategory]

/-! ### C9 -/

/-- C9: when an item's guarded processing fails, the batch loop with
continue-on-failure active pushes a structured error record (message
under `error`, `errorType` = `timeout` exactly for the dedicated
abort check, an `errorDetails` key, `success:false`, and the item
index) and continues with the remaining items; with the policy
inactive it raises the categorized error for that item index and the
remaining items are not processed (the outcome does not depend on
them). -/
theorem continue_on_fail_behavior (it : HostItem) (rest : List HostItem)
    (idx : Nat) (acc : List J) (e : ErrorInfo)
    (hfail : (runItem it.params it.sdk).1 = ItemResult.failure e) :
    executeGo true idx (it :: rest) acc
        = executeGo true (idx + 1) rest (errorRecord idx e :: acc)
    ∧ executeGo false idx (it :: rest) acc
        = ExecuteResult.raised (translateError it.params.timeout e) idx
    ∧ jGet (errorRecord idx e) "error" = some (J.str e.message)
    ∧ jGet (errorRecord idx e) "errorType"
        = some (J.str (if e.name == "AbortError" then "timeout"
                       else "execution_error"))
    ∧ (jGet (errorRecord idx e) "errorDetails").isSome = true
    ∧ jGet (errorRecord idx e) "itemIndex" = some (J.num (idx : Rat))
    ∧ jGet (errorRecord idx e) "success" = some (J.bool false) := by
  rcases hrun : runItem it.params it.sdk with ⟨r, b⟩
  rw [hrun] at hfail
  simp only at hfail
  subst hfail
  refine ⟨?_, ?_, rfl, rfl, rfl, rfl, rfl⟩
  · simp [executeGo, hrun]
  · simp [executeGo, hrun]

/-- A host item whose query call aborts (timeout fired). -/
def cexAbortedItem : HostItem :=
  { params := { prompt := "hi", outputFormat := "text", timeout := 60 }
    sdk := SdkOutcome.err { name := "AbortError", message := "The operation was aborted" } }

/-- C9 witness: a concrete aborted item raises the categorized timeout
error when continue-on-failure is inactive. -/
theorem continue_on_fail_behavior_witness :
    executeGo false 0 [cexAbortedItem] []
      = ExecuteResult.raised
          (translateError 60 { name := "AbortError", message := "The operation was aborted" }) 0 :=
  (continue_on_fail_behavior cexAbortedItem [] 0 []
    { name := "AbortError", message := "The operation was aborted" } rfl).2.1

/-! ### C10 -/

/-- C10: whenever the structured output carries a `metrics` block (the
result record the formatter uses has a defined `duration_ms`), the
block holds all four keys, defaulting `num_turns` and `total_cost_usd`
to `0` and `usage` to the empty object when absent. -/
theorem metrics_block_complete (messages : List Record) (debug : Bool)
    (r : Record) (d : Rat)
    (hr : findResultRecord messages = some r) (hd : r.duration_ms = some d) :
    jGet (structuredFormat debug messages) "metrics"
      = some (J.obj [("duration_ms", J.num d),
                     ("num_turns", J.num (r.num_turns.getD 0)),
                     ("total_cost_usd", J.num (r.total_cost_usd.getD 0)),
                     ("usage", usageToJ (r.usage.getD []))]) := by
  have hroe : jGetFields (structuredResultOrError (some r)) "metrics" = none := by
    unfold structuredResultOrError
    cases h1 : truthyStr ((some r).bind Record.result) with
    | some t => simp [jGetFields]
    | none =>
      cases h2 : truthyStr ((some r).bind Record.error) <;> simp [jGetFields]
  have hmet : jGetFields (structuredMetrics (some r)) "metrics"
      = some (J.obj [("duration_ms", J.num d),
                     ("num_turns", J.num (r.num_turns.getD 0)),
                     ("total_cost_usd", J.num (r.total_cost_usd.getD 0)),
                     ("usage", usageToJ (r.usage.getD []))]) := by
    unfold structuredMetrics
    simp [hd, jGetFields, jsNumOr0_getD]
  simp [structuredFormat, hr, jGet, jGetFields_append, jGetFields, hroe, hmet]

/-- Concrete result record carrying only a `duration_ms` metric. -/
def cexMetricsRecord : Record :=
  { type := "result", subtype := some "success", result := some "done",
    duration_ms := some 120 }

/-- C10 witness: the concrete metrics block holds all four keys with
the absent sub-metrics defaulted. -/
theorem metrics_block_complete_witness :
    jGet (structuredFormat false [cexMetricsRecord]) "metrics"
      = some (J.obj [("duration_ms", J.num 120),
                     ("num_turns", J.num 0),
                     ("total_cost_usd", J.num 0),
                     ("usage", usageToJ [])]) :=
  metrics_block_complete [cexMetricsRecord] false cexMetricsRecord 120 rfl rfl

end ClaudeCodeNode
